import Mathlib

/-!
Shallow embedding of the Human-in-loop workflow system
(src/app/workflow_engine.py, src/app/approval_manager.py,
src/app/rollback_engine.py, src/app/main.py).

Conventions:
* Timestamps are integers (seconds); `datetime.now()` becomes an explicit
  `now : Int` argument; `uuid.uuid4()` becomes an explicit fresh-id argument.
* The sqlite Store is modelled as association lists inside the state records;
  per the spec the Store is an external collaborator whose writes succeed
  (save = atomic upsert, update = in-place row update).
* The Notifier only prints to the console (notification_service.py) and has
  no state effect, so notification calls are omitted from the state models.
* asyncio: the engine awaits every call it makes, so a single execution is
  a sequential program; outcomes of external effects (task handler results,
  whether an approval event is signaled before the wait times out, whether a
  compensation handler raises) are supplied by Boolean oracles.
-/

/-- WorkflowStatus enum, models.py lines 7-16. -/
inductive WorkflowStatus where
  | pending
  | running
  | awaiting_approval
  | approved
  | rejected
  | completed
  | rolled_back
  | failed
  | cancelled
deriving DecidableEq, Repr

/-- WorkflowStep, models.py lines 30-39 (fields used by the core engine). -/
structure WorkflowStep where
  step_id : String
  name : String
  action_type : String
  requires_approval : Bool := false
  approval_level : Nat := 1
  timeout_minutes : Int := 60
  retry_count : Nat := 0
deriving DecidableEq, Repr, Inhabited

/-- One execution_log entry: the event_type tag plus the step index carried
in the event's data payload when the source includes one. -/
structure LogEvent where
  event_type : String
  step_index : Option Nat := none
deriving DecidableEq, Repr

/-- WorkflowInstance, models.py lines 49-63 (fields used by the core).
`rollback_data` is reduced to the flag "a rollback snapshot is attached". -/
structure WorkflowInstance where
  id : String
  status : WorkflowStatus
  current_step : Nat := 0
  steps : List WorkflowStep
  execution_log : List LogEvent := []
  rollback_data : Bool := false
deriving DecidableEq, Repr

/-- A persisted approval_requests row, database.py lines 35-48: the status
column defaults to the string "pending". -/
structure ApprovalRequestRec where
  id : String
  workflow_id : String
  step_id : String
  approval_level : Nat := 1
  requested_at : Int := 0
  timeout_at : Int := 0
  status : String := "pending"
deriving DecidableEq, Repr

/-- State shared by ApprovalManager (approval_manager.py) and the Store:
approval_requests rows, approval_responses rows (request id, action),
the `pending_approvals` dict of asyncio Events (id, set-flag),
and the workflow records (id, status) — listed to show approval
operations leave them untouched. -/
structure ApprovalState where
  requests : List ApprovalRequestRec := []
  responses : List (String × String) := []
  events : List (String × Bool) := []
  workflows : List (String × WorkflowStatus) := []
deriving DecidableEq, Repr

/-- ApprovalManager.create_approval_request, approval_manager.py lines 15-53.
The signature has no timeout parameter; timeout_at is hard-coded to
requested_at + 24 hours (line 26); there is no validation and no failure
path.  A fresh asyncio.Event (unset) is registered under the new id. -/
def create_approval_request (st : ApprovalState) (wid sid : String) (lvl : Nat)
    (now : Int) (newId : String) : ApprovalRequestRec × ApprovalState :=
  let req : ApprovalRequestRec :=
    { id := newId, workflow_id := wid, step_id := sid, approval_level := lvl,
      requested_at := now, timeout_at := now + 86400, status := "pending" }
  (req, { st with requests := st.requests ++ [req],
                  events := st.events ++ [(newId, false)] })

/-- The ApprovalRequest built inline by AutomatedWorkflowEngine for an
approval step, main.py lines 318-333: timeout_at = now + step.timeout_minutes
minutes, again with no positivity check and no failure path. -/
def mk_approval_request_auto (wid : String) (step : WorkflowStep)
    (now : Int) (newId : String) : ApprovalRequestRec :=
  { id := newId, workflow_id := wid, step_id := step.step_id,
    approval_level := step.approval_level, requested_at := now,
    timeout_at := now + step.timeout_minutes * 60, status := "pending" }

/-- ApprovalManager.wait_for_approval, approval_manager.py lines 55-67.
Returns False immediately when the id has no registered event; otherwise
returns True when the event is already set or is signaled before the
timeout elapses (the `signaled` oracle), else False (asyncio.TimeoutError
branch).  It reads only `pending_approvals` and modifies nothing. -/
def wait_for_approval (st : ApprovalState) (rid : String) (signaled : Bool) : Bool :=
  match st.events.find? (fun p => p.1 = rid) with
  | none => false
  | some p => p.2 || signaled

/-- Result of submit_approval_response: the returned Boolean, whether an
event was signaled (an in-flight wait on this id observes True), and the
post state. -/
structure SubmitResult where
  returned : Bool
  signaled : Bool
  state : ApprovalState
deriving DecidableEq, Repr

/-- ApprovalManager.submit_approval_response, approval_manager.py lines
69-105: unconditionally INSERTs a response row, unconditionally UPDATEs the
request's status column to the submitted action (lines 87-91 — no check of
the current status), then, if an event is registered for the id, sets it
(waking any in-flight wait) and removes it from the dict; always returns
True. -/
def submit_approval_response (st : ApprovalState) (rid : String)
    (action : String) : SubmitResult :=
  let st1 : ApprovalState :=
    { st with responses := st.responses ++ [(rid, action)],
              requests := st.requests.map
                (fun q => if q.id = rid then { q with status := action } else q) }
  let inMap : Bool := (st1.events.find? (fun p => p.1 = rid)).isSome
  let st2 : ApprovalState :=
    if inMap then { st1 with events := st1.events.filter (fun p => p.1 ≠ rid) }
    else st1
  { returned := true, signaled := inMap, state := st2 }

/-- AutomatedWorkflowEngine._check_approval_timeouts, main.py lines 439-452:
every request listed as pending whose timeout_at has passed gets its status
set to "timeout" and, if an event is registered for it, the event is set
(the dict entry is not removed). -/
def check_approval_timeouts (st : ApprovalState) (now : Int) : ApprovalState :=
  let timedOut : List String :=
    (st.requests.filter
      (fun q => q.status = "pending" && decide (q.timeout_at < now))).map
      (fun q => q.id)
  { st with
    requests := st.requests.map
      (fun q => if timedOut.contains q.id then { q with status := "timeout" } else q),
    events := st.events.map
      (fun p => if timedOut.contains p.1 then (p.1, true) else p) }

/-- WorkflowEngine._execute_step's approval branch outcome, workflow_engine.py
lines 96-106 and 122: the Boolean returned by wait_for_approval is the step's
success value (False logs approval_timeout and fails the step, True
proceeds). -/
def execute_step_approval_outcome (approved : Bool) : Bool :=
  if approved then true else false

/-- The compensation handler dispatch table of
RollbackEngine._execute_compensation_action, rollback_engine.py lines 52-59:
the four registered action types map to their handlers, every other
action_type falls back to _generic_compensation.  Each handler only logs one
event whose event_type is the tag returned here (lines 64-97). -/
def compensation_handler_tag (action_type : String) : String :=
  if action_type = "process_data" then "data_processing_rollback"
  else if action_type = "fraud_detection" then "fraud_check_rollback"
  else if action_type = "deploy_system" then "deployment_rollback"
  else if action_type = "validate_data" then "validation_rollback"
  else "generic_rollback"

/-- The index sequence of `range(current_step, -1, -1)` used by
RollbackEngine.execute_rollback, rollback_engine.py line 22:
[k, k-1, ..., 1, 0]. -/
def descRange : Nat → List Nat
  | 0 => [0]
  | n + 1 => (n + 1) :: descRange n

/-- The compensation loop of RollbackEngine.execute_rollback, rollback_engine.py
lines 22-24, one iteration per index in the given list.  Looking up
`workflow.steps[step_index]` out of range raises IndexError, and the oracle
`raises` says whether the c-th compensation handler call raises; either
exception aborts the loop (the Boolean result is false and the partial state
is returned).  A successful handler call appends its log event; the trace
accumulates the (step index, handler tag) of every completed call. -/
def compensation_sweep (raises : Nat → Bool) :
    List Nat → Nat → WorkflowInstance → List (Nat × String) →
    Bool × WorkflowInstance × List (Nat × String)
  | [], _, w, tr => (true, w, tr)
  | i :: rest, c, w, tr =>
    match w.steps.get? i with
    | none => (false, w, tr)
    | some st =>
      if raises c then (false, w, tr)
      else
        let tag := compensation_handler_tag st.action_type
        let w' : WorkflowInstance :=
          { w with execution_log :=
              w.execution_log ++ [{ event_type := tag, step_index := some i }] }
        compensation_sweep raises rest (c + 1) w' (tr ++ [(i, tag)])

/-- RollbackEngine.execute_rollback, rollback_engine.py lines 13-38: logs
rollback_started, runs the compensation loop over indices current_step down
to 0, and — only if nothing raised — sets status ROLLED_BACK, attaches the
snapshot and logs rollback_completed; any exception inside the body is
caught by the single outer handler, which just logs rollback_failed (lines
37-38), leaving status and rollback_data untouched.  The function is total:
no error reaches the caller.  Returns the final workflow and the trace of
completed compensation calls. -/
def execute_rollback (raises : Nat → Bool) (w0 : WorkflowInstance) :
    WorkflowInstance × List (Nat × String) :=
  match compensation_sweep raises (descRange w0.current_step) 0
      { w0 with execution_log := w0.execution_log ++ [{ event_type := "rollback_started" }] }
      [] with
  | (true, w2, tr) =>
    let w3 : WorkflowInstance := { w2 with status := .rolled_back, rollback_data := true }
    ({ w3 with execution_log := w3.execution_log ++ [{ event_type := "rollback_completed" }] }, tr)
  | (false, w2, tr) =>
    ({ w2 with execution_log := w2.execution_log ++ [{ event_type := "rollback_failed" }] }, tr)

/-- State of one WorkflowEngine execution (workflow_engine.py), with the
observables the spec speaks about: `attempts` counts the calls made to
_execute_step, `failedWrites` counts the status writes with value FAILED,
`rollbackCalls` counts the invocations of RollbackEngine.execute_rollback,
and `stepWrites` records every value written to current_step, in order. -/
structure EngineState where
  wf : WorkflowInstance
  attempts : Nat := 0
  failedWrites : Nat := 0
  rollbackCalls : Nat := 0
  stepWrites : List Nat := []
deriving DecidableEq, Repr

/-- Append an event to the workflow's execution_log
(WorkflowEngine._log_event, workflow_engine.py lines 159-171). -/
def engine_log (e : LogEvent) (s : EngineState) : EngineState :=
  { s with wf := { s.wf with execution_log := s.wf.execution_log ++ [e] } }

/-- A status assignment followed by db.update_workflow_status. -/
def set_status (st : WorkflowStatus) (s : EngineState) : EngineState :=
  { s with wf := { s.wf with status := st },
           failedWrites := s.failedWrites + (if st = .failed then 1 else 0) }

/-- `workflow.current_step = step_index` followed by
db.update_workflow_status(id, status, step_index),
workflow_engine.py lines 44-45. -/
def set_current_step (i : Nat) (s : EngineState) : EngineState :=
  { s with wf := { s.wf with current_step := i }, stepWrites := s.stepWrites ++ [i] }

/-- WorkflowEngine._execute_step, workflow_engine.py lines 78-129, abstracted
to its outcome: whether the attempt succeeds is decided by external effects
(task handler result, or approval decision versus timeout), supplied by the
oracle indexed by the number of _execute_step calls made so far.  Every
branch of the source catches its own errors and returns a Boolean. -/
def engine_execute_step (exec : Nat → Bool) (s : EngineState) : Bool × EngineState :=
  (exec s.attempts, { s with attempts := s.attempts + 1 })

/-- `step.retry_count` of the step at index i (0 when out of range). -/
def retry_count_at (s : EngineState) (i : Nat) : Nat :=
  ((s.wf.steps.get? i).map WorkflowStep.retry_count).getD 0

/-- Apply f to the element at the given index, leave the rest unchanged. -/
def modifyIdx (f : WorkflowStep → WorkflowStep) : Nat → List WorkflowStep → List WorkflowStep
  | _, [] => []
  | 0, st :: rest => f st :: rest
  | n + 1, st :: rest => st :: modifyIdx f n rest

/-- Increment `step.retry_count` for the step object at index i
(workflow_engine.py line 133; the loop variable aliases steps[i]). -/
def inc_retry_at (i : Nat) (s : EngineState) : EngineState :=
  { s with wf := { s.wf with steps :=
      (modifyIdx (fun st => { st with retry_count := st.retry_count + 1 }) i s.wf.steps) } }

/-- WorkflowEngine._handle_workflow_failure, workflow_engine.py lines 146-157:
set status FAILED (persisted), log workflow_failed with the failing step
index, then invoke RollbackEngine.execute_rollback. -/
def handle_workflow_failure (raises : Nat → Bool) (s : EngineState) : EngineState :=
  let s1 := set_status .failed s
  let s2 := engine_log { event_type := "workflow_failed", step_index := some s1.wf.current_step } s1
  let w' := (execute_rollback raises s2.wf).1
  { s2 with wf := w', rollbackCalls := s2.rollbackCalls + 1 }

/-- WorkflowEngine._handle_step_failure, workflow_engine.py lines 131-144:
increment retry_count; if still below 3, log step_retry, sleep, and call
_execute_step once more — the source discards this call's return value
(line 142), so a failure of the re-attempt is not handled; otherwise invoke
_handle_workflow_failure. -/
def handle_step_failure (exec raises : Nat → Bool) (s : EngineState) : EngineState :=
  let i := s.wf.current_step
  let s1 := inc_retry_at i s
  if retry_count_at s1 i < 3 then
    let s2 := engine_log { event_type := "step_retry", step_index := some i } s1
    (engine_execute_step exec s2).2
  else
    handle_workflow_failure raises s1

/-- The `for step_index, step in enumerate(workflow.steps)` loop of
WorkflowEngine._execute_workflow, workflow_engine.py lines 43-63: write
current_step, log step_started, run the step; on success log step_completed
and continue with the next index, on failure call _handle_step_failure and
break. -/
def step_loop (exec raises : Nat → Bool) :
    Nat → List WorkflowStep → EngineState → EngineState
  | _, [], s => s
  | i, _ :: rest, s =>
    let s1 := set_current_step i s
    let s2 := engine_log { event_type := "step_started", step_index := some i } s1
    match engine_execute_step exec s2 with
    | (true, s3) =>
      let s4 := engine_log { event_type := "step_completed", step_index := some i } s3
      step_loop exec raises (i + 1) rest s4
    | (false, s3) =>
      handle_step_failure exec raises s3

/-- WorkflowEngine._execute_workflow, workflow_engine.py lines 40-76: run the
step loop from index 0 over the whole steps list; afterwards, if the status
is still RUNNING, transition to COMPLETED and log workflow_completed. -/
def execute_workflow (exec raises : Nat → Bool) (s0 : EngineState) : EngineState :=
  let s := step_loop exec raises 0 s0.wf.steps s0
  if s.wf.status = .running then
    engine_log { event_type := "workflow_completed" } (set_status .completed s)
  else s

/-- The registry of active executions: `active` is the key set of the
`active_workflows` dict; `tasksCreated` counts the background executions
created with asyncio.create_task. -/
structure EngineRegistry where
  active : List String := []
  tasksCreated : Nat := 0
deriving DecidableEq, Repr

/-- WorkflowEngine.start_workflow, workflow_engine.py lines 19-38, restricted
to its registry effect: raise ValueError when the workflow record is absent;
otherwise unconditionally create a background execution task and store it
under the id (overwriting any entry already there) — there is no check of
`active_workflows` before creating the task. -/
def start_workflow_registry (reg : EngineRegistry) (id : String)
    (found : Bool) : Except String EngineRegistry :=
  if found then
    .ok { active := if reg.active.contains id then reg.active else reg.active ++ [id],
          tasksCreated := reg.tasksCreated + 1 }
  else
    .error "ValueError: workflow not found"

/-- AutomatedWorkflowEngine._start_workflow_execution, main.py lines 280-297,
restricted to its registry effect: return immediately when the id is already
in `active_workflows` (lines 284-285), otherwise create the background task
and register it. -/
def start_workflow_execution_auto (reg : EngineRegistry) (id : String) : EngineRegistry :=
  if reg.active.contains id then reg
  else { active := reg.active ++ [id], tasksCreated := reg.tasksCreated + 1 }

/-- A freshly started one-step workflow whose step's automated handler
always fails (the all-false execution oracle). -/
def c1_workflow : WorkflowInstance :=
  { id := "w1", status := .running,
    steps := [{ step_id := "s1", name := "step one", action_type := "process_data" }] }

/-- A three-step workflow that failed at current_step = 2; index 1 has an
action_type with no registered compensation. -/
def rollback_wf : WorkflowInstance :=
  { id := "w2", status := .failed, current_step := 2,
    steps := [{ step_id := "a", name := "a", action_type := "validate_data" },
              { step_id := "b", name := "b", action_type := "unknown_action" },
              { step_id := "c", name := "c", action_type := "deploy_system" }] }

/-- A running (non-terminal) three-step workflow whose persisted record says
current_step = 2, as left behind by a prior execution of the same id. -/
def c8_workflow : WorkflowInstance :=
  { id := "w8", status := .running, current_step := 2,
    steps := [{ step_id := "a", name := "a", action_type := "x" },
              { step_id := "b", name := "b", action_type := "y" },
              { step_id := "c", name := "c", action_type := "z" }] }

/-- Approval state with one pending request r1 (timeout_at = 10), its
registered unset event, and the owning workflow's record. -/
def ap_state : ApprovalState :=
  { requests := [{ id := "r1", workflow_id := "w1", step_id := "s1", timeout_at := 10 }],
    events := [("r1", false)],
    workflows := [("w1", .awaiting_approval)] }

/-- The same state after the timeout sweep ran at now = 20 > 10. -/
def ap_state_timeout : ApprovalState := check_approval_timeouts ap_state 20

/-- The r1 row as it stands after the sweep marked it timed out. -/
def timeout_rec : ApprovalRequestRec :=
  { id := "r1", workflow_id := "w1", step_id := "s1", timeout_at := 10, status := "timeout" }

/-- An approval step whose supplied timeout is 0 minutes (non-positive). -/
def zero_timeout_step : WorkflowStep :=
  { step_id := "s1", name := "deploy", action_type := "deploy_system",
    requires_approval := true, timeout_minutes := 0 }

/-- Run of _execute_workflow on c1_workflow where every _execute_step call
fails (automated handler failure or approval timeout/negative, each time). -/
def c1_result : EngineState :=
  execute_workflow (fun _ => false) (fun _ => false) { wf := c1_workflow }

/-- Rollback of rollback_wf where the second compensation handler call
(the one for step index 1) raises. -/
def c5_result : WorkflowInstance × List (Nat × String) :=
  execute_rollback (fun c => c == 1) rollback_wf

/-- Run of _execute_workflow on the partially progressed record c8_workflow
(every step attempt succeeds). -/
def c8_result : EngineState :=
  execute_workflow (fun _ => true) (fun _ => false) { wf := c8_workflow }

/-- A reject decision submitted for r1 while its waiter is parked. -/
def c6_submit : SubmitResult := submit_approval_response ap_state "r1" "reject"

/-- The race of C3: the timeout sweep resolves r1 first (at now = 20), then
a reject decision is submitted for the same request. -/
def c3_race_result : SubmitResult :=
  submit_approval_response ap_state_timeout "r1" "reject"

/-- submit_approval_response always returns True (source line 105). -/
theorem submit_returned_eq (st : ApprovalState) (rid action : String) :
    (submit_approval_response st rid action).returned = true := rfl

/-- The requests table after submit: every row with the submitted id has its
status overwritten by the submitted action; the registered-event branch does
not touch the table. -/
theorem submit_requests_eq (st : ApprovalState) (rid action : String) :
    (submit_approval_response st rid action).state.requests =
      st.requests.map (fun q => if q.id = rid then { q with status := action } else q) := by
  simp only [submit_approval_response]
  split <;> rfl

/-- The responses table after submit: the new row is appended
unconditionally. -/
theorem submit_responses_eq (st : ApprovalState) (rid action : String) :
    (submit_approval_response st rid action).state.responses =
      st.responses ++ [(rid, action)] := by
  simp only [submit_approval_response]
  split <;> rfl

/-- submit_approval_response never touches the workflow records. -/
theorem submit_workflows_eq (st : ApprovalState) (rid action : String) :
    (submit_approval_response st rid action).state.workflows = st.workflows := by
  simp only [submit_approval_response]
  split <;> rfl

/-- The signaled flag of submit is exactly "an event is registered for the
id": the response insert and status update do not change the event map. -/
theorem submit_signaled_eq (st : ApprovalState) (rid action : String) :
    (submit_approval_response st rid action).signaled =
      (st.events.find? (fun p => p.1 = rid)).isSome := rfl

/-- Every member of descRange k is at most k. -/
theorem descRange_le {k i : Nat} (h : i ∈ descRange k) : i ≤ k := by
  induction k with
  | zero =>
    simp [descRange] at h
    omega
  | succ n ih =>
    simp only [descRange, List.mem_cons] at h
    rcases h with h | h
    · omega
    · have := ih h
      omega

/-- descRange k starts at k. -/
theorem descRange_head (k : Nat) : (descRange k).head? = some k := by
  cases k <;> rfl

/-- descRange k is strictly decreasing. -/
theorem descRange_chain (k : Nat) :
    List.Chain' (fun a b => b < a) (descRange k) := by
  induction k with
  | zero => simp [descRange]
  | succ n ih =>
    rw [descRange, List.chain'_cons']
    refine ⟨?_, ih⟩
    intro b hb
    rw [descRange_head n] at hb
    simp only [Option.mem_def, Option.some.injEq] at hb
    omega

/-- The compensation loop never changes the workflow's status (handlers
only append log events). -/
theorem sweep_preserves_status (f : Nat → Bool) :
    ∀ (l : List Nat) (c : Nat) (w : WorkflowInstance) (tr : List (Nat × String)),
    (compensation_sweep f l c w tr).2.1.status = w.status := by
  intro l
  induction l with
  | nil => intro c w tr; rfl
  | cons i rest ih =>
    intro c w tr
    unfold compensation_sweep
    cases hg : w.steps.get? i with
    | none => rfl
    | some st =>
      by_cases hf : f c
      · simp [hf]
      · simp only [hf, if_neg, Bool.false_eq_true, not_false_iff, if_false]
        exact ih (c + 1) _ _

/-- When no compensation call raises and every index is in range, the loop
completes and its trace appends one (index, handler tag) pair per index, in
the order of the index list. -/
theorem sweep_no_raise (steps : List WorkflowStep) :
    ∀ (l : List Nat) (c : Nat) (w : WorkflowInstance) (tr : List (Nat × String)),
    w.steps = steps →
    (∀ i ∈ l, i < steps.length) →
    (compensation_sweep (fun _ => false) l c w tr).1 = true ∧
    (compensation_sweep (fun _ => false) l c w tr).2.2 =
      tr ++ l.map (fun i =>
        (i, compensation_handler_tag (((steps.get? i).getD default).action_type))) := by
  intro l
  induction l with
  | nil => intro c w tr hw hl; simp [compensation_sweep]
  | cons i rest ih =>
    intro c w tr hw hl
    have hi : i < steps.length := hl i (List.mem_cons_self i rest)
    have hne : steps.get? i ≠ none := by
      intro hcon
      rw [List.get?_eq_none] at hcon
      omega
    cases hg : steps.get? i with
    | none => exact absurd hg hne
    | some st =>
      have hg' : w.steps.get? i = some st := by rw [hw]; exact hg
      unfold compensation_sweep
      rw [hg']
      simp only [Bool.false_eq_true, if_false]
      have hrec := ih (c + 1)
        { w with execution_log := w.execution_log ++
            [{ event_type := compensation_handler_tag st.action_type, step_index := some i }] }
        (tr ++ [(i, compensation_handler_tag st.action_type)])
        hw (fun j hj => hl j (List.mem_cons_of_mem i hj))
      refine ⟨hrec.1, ?_⟩
      rw [hrec.2]
      simp only [List.map_cons]
      rw [hg, Option.getD_some, List.append_assoc, List.singleton_append]

/-- The trace returned by execute_rollback is exactly the trace of the
compensation loop (both match branches return it unchanged). -/
theorem execute_rollback_trace (f : Nat → Bool) (w : WorkflowInstance) :
    (execute_rollback f w).2 =
      (compensation_sweep f (descRange w.current_step) 0
        { w with execution_log := w.execution_log ++ [{ event_type := "rollback_started" }] }
        []).2.2 := by
  unfold execute_rollback
  cases hsw : compensation_sweep f (descRange w.current_step) 0
      { w with execution_log := w.execution_log ++ [{ event_type := "rollback_started" }] }
      [] with
  | mk b p =>
    cases p with
    | mk w2 tr =>
      cases b <;> rfl

/-- _handle_step_failure never writes current_step: neither the silent
re-attempt branch nor the failure/rollback branch calls set_current_step. -/
theorem handle_step_failure_writes (exec raises : Nat → Bool) (s : EngineState) :
    (handle_step_failure exec raises s).stepWrites = s.stepWrites := by
  simp only [handle_step_failure]
  split <;> rfl

/-- Helper for the step loop's write trace: appending the loop index to a
chain bounded by it keeps it a chain. -/
theorem chain_append_le (l : List Nat) (i : Nat)
    (hb : ∀ x ∈ l, x ≤ i) (hc : List.Chain' (fun a b => a ≤ b) l) :
    List.Chain' (fun a b => a ≤ b) (l ++ [i]) := by
  rw [List.chain'_append]
  refine ⟨hc, List.chain'_singleton i, ?_⟩
  intro x hx y hy
  simp only [List.head?_cons, Option.mem_def, Option.some.injEq] at hy
  subst hy
  obtain ⟨hne, hxl⟩ := List.mem_getLast?_eq_getLast hx
  exact hxl ▸ hb _ (List.getLast_mem hne)

/-- The write trace of the step loop: starting from a trace that is a
non-decreasing chain bounded by the loop index, the trace stays a
non-decreasing chain (the loop only appends i, i+1, ...; the failure path
appends nothing). -/
theorem step_loop_writes_chain (exec raises : Nat → Bool) :
    ∀ (steps : List WorkflowStep) (i : Nat) (s : EngineState),
    (∀ x ∈ s.stepWrites, x ≤ i) →
    List.Chain' (fun a b => a ≤ b) s.stepWrites →
    List.Chain' (fun a b => a ≤ b) ((step_loop exec raises i steps s).stepWrites) := by
  intro steps
  induction steps with
  | nil => intro i s hb hc; exact hc
  | cons st rest ih =>
    intro i s hb hc
    unfold step_loop
    have hw1 : (set_current_step i s).stepWrites = s.stepWrites ++ [i] := rfl
    have hc1 : List.Chain' (fun a b => a ≤ b) (s.stepWrites ++ [i]) :=
      chain_append_le _ _ hb hc
    cases hx : engine_execute_step exec
        (engine_log { event_type := "step_started", step_index := some i }
          (set_current_step i s)) with
    | mk ok s3 =>
      have hs3 : s3.stepWrites = s.stepWrites ++ [i] := by
        have : s3 = (engine_execute_step exec
            (engine_log { event_type := "step_started", step_index := some i }
              (set_current_step i s))).2 := by rw [hx]
        rw [this]
        rfl
      cases ok
      · simp only [hx]
        rw [handle_step_failure_writes, hs3]
        exact hc1
      · simp only [hx]
        apply ih (i + 1)
        · intro x hxm
          rw [show (engine_log { event_type := "step_completed", step_index := some i }
              s3).stepWrites = s3.stepWrites from rfl, hs3] at hxm
          rcases List.mem_append.1 hxm with hxm | hxm
          · exact Nat.le_succ_of_le (Nat.le_of_lt_succ (Nat.lt_succ_of_le (hb x hxm)))
          · simp only [List.mem_singleton] at hxm
            omega
        · rw [show (engine_log { event_type := "step_completed", step_index := some i }
              s3).stepWrites = s3.stepWrites from rfl, hs3]
          exact hc1

/-- C1: the claim says a step failing 3 consecutive times drives retry_count
to exactly 3, transitions the workflow to FAILED exactly once, and invokes
execute_rollback exactly once.  The code diverges: _handle_step_failure
increments retry_count once, re-attempts the step while discarding the
result (workflow_engine.py line 142), so the second failure is never
handled; the loop then breaks with status still RUNNING and
_execute_workflow marks the workflow COMPLETED.  Evaluating the engine at
the failing input (one step whose every attempt fails): only 2 attempts are
ever made, retry_count ends at 1, there is no FAILED transition, rollback
is never invoked, and the final status is COMPLETED. -/
theorem c1_retry_bug_eval :
    c1_result.wf.status = WorkflowStatus.completed ∧
    retry_count_at c1_result 0 = 1 ∧
    c1_result.attempts = 2 ∧
    c1_result.failedWrites = 0 ∧
    c1_result.rollbackCalls = 0 := by
  decide

/-- C2 counterexample: the claim says a second start of an active workflow
id is rejected with ConcurrencyError or is a no-op.  WorkflowEngine.
start_workflow (workflow_engine.py lines 19-38) performs no registry check
before asyncio.create_task: starting "w1" while it is already registered
(one task created) succeeds and creates a second concurrent execution. -/
theorem c2_counterexample :
    start_workflow_registry { active := ["w1"], tasksCreated := 1 } "w1" true
      = Except.ok { active := ["w1"], tasksCreated := 2 } := by
  rfl

/-- C2 amended: only AutomatedWorkflowEngine._start_workflow_execution
(main.py lines 284-285) guards against duplicate starts, and it does so as a
silent no-op, not a ConcurrencyError: when the id is already registered the
call returns with the registry unchanged and no new execution created;
WorkflowEngine.start_workflow has no such check. -/
theorem c2_duplicate_start_noop (reg : EngineRegistry) (id : String)
    (h : reg.active.contains id = true) :
    start_workflow_execution_auto reg id = reg := by
  unfold start_workflow_execution_auto
  rw [h]
  simp

/-- Witness for c2_duplicate_start_noop at a concrete registry. -/
theorem c2_witness :
    (EngineRegistry.mk ["w1"] 1).active.contains "w1" = true ∧
    start_workflow_execution_auto (EngineRegistry.mk ["w1"] 1) "w1" = EngineRegistry.mk ["w1"] 1 :=
  ⟨by decide, c2_duplicate_start_noop (EngineRegistry.mk ["w1"] 1) "w1" (by decide)⟩

/-- C3 counterexample: the claim says submitDecision on an already-resolved
request returns ConcurrencyError and changes no state.  After the timeout
sweep resolves r1 (status "timeout"), a late reject submission still returns
True, overwrites the stored status with "reject", and inserts a response
row — the racing writer silently overwrites instead of observing an
error. -/
theorem c3_counterexample :
    c3_race_result.returned = true ∧
    c3_race_result.state.requests =
      [{ id := "r1", workflow_id := "w1", step_id := "s1", timeout_at := 10,
         status := "reject" }] ∧
    c3_race_result.state.responses = [("r1", "reject")] := by
  decide

/-- C3 amended: submit_approval_response performs no pending-status check:
for every request row with the submitted id, whatever its current status
(pending or already terminal), the call returns True, appends a response
row, and overwrites the stored status with the submitted action — so when
submitDecision and the timeout sweep race, the later writer overwrites the
earlier one and ConcurrencyError is never raised. -/
theorem c3_submit_overwrites (st : ApprovalState) (rid action : String)
    (q : ApprovalRequestRec) (hq : q ∈ st.requests) (hid : q.id = rid) :
    (submit_approval_response st rid action).returned = true ∧
    { q with status := action } ∈ (submit_approval_response st rid action).state.requests ∧
    (submit_approval_response st rid action).state.responses = st.responses ++ [(rid, action)] := by
  refine ⟨submit_returned_eq st rid action, ?_, submit_responses_eq st rid action⟩
  rw [submit_requests_eq]
  have hm := List.mem_map_of_mem
    (fun r => if r.id = rid then { r with status := action } else r) hq
  simpa [hid] using hm

/-- Witness for c3_submit_overwrites: the timed-out r1 row overwritten by a
late reject. -/
theorem c3_witness :
    (timeout_rec ∈ ap_state_timeout.requests ∧ timeout_rec.id = "r1") ∧
    ((submit_approval_response ap_state_timeout "r1" "reject").returned = true ∧
     { timeout_rec with status := "reject" } ∈
       (submit_approval_response ap_state_timeout "r1" "reject").state.requests ∧
     (submit_approval_response ap_state_timeout "r1" "reject").state.responses =
       ap_state_timeout.responses ++ [("r1", "reject")]) :=
  ⟨⟨by decide, by decide⟩,
   c3_submit_overwrites ap_state_timeout "r1" "reject" timeout_rec (by decide) (by decide)⟩

/-- Mapping Prod.fst over a pairing map recovers the index list. -/
theorem map_pair_fst (f : Nat → String) :
    ∀ l : List Nat, (l.map (fun j => (j, f j))).map Prod.fst = l
  | [] => rfl
  | j :: l => by
    simp only [List.map_cons, List.map_map]
    rw [show (List.map (Prod.fst ∘ fun j => (j, f j)) l) =
          (l.map (fun j => (j, f j))).map Prod.fst from (List.map_map _ _ _).symm,
        map_pair_fst f l]

/-- C4: for a failed workflow whose current_step is a valid step index,
execute_rollback invokes exactly one compensation handler per index, for the
indices current_step, current_step-1, ..., 0, in exactly that strictly
decreasing order; each invocation uses the handler registered for the step's
action_type, and an action_type outside the dispatch table is handled by the
generic handler rather than skipped. -/
theorem c4_rollback_reverse_order (w : WorkflowInstance)
    (hst : w.status = WorkflowStatus.failed) (hk : w.current_step < w.steps.length) :
    ((execute_rollback (fun _ => false) w).2).map Prod.fst = descRange w.current_step ∧
    List.Chain' (fun a b => b < a) (((execute_rollback (fun _ => false) w).2).map Prod.fst) ∧
    ∀ p ∈ (execute_rollback (fun _ => false) w).2,
      p.2 = compensation_handler_tag (((w.steps.get? p.1).getD default).action_type) ∧
      (((w.steps.get? p.1).getD default).action_type ≠ "process_data" →
       ((w.steps.get? p.1).getD default).action_type ≠ "fraud_detection" →
       ((w.steps.get? p.1).getD default).action_type ≠ "deploy_system" →
       ((w.steps.get? p.1).getD default).action_type ≠ "validate_data" →
       p.2 = "generic_rollback") := by
  have hbound : ∀ j ∈ descRange w.current_step, j < w.steps.length := by
    intro j hj
    exact Nat.lt_of_le_of_lt (descRange_le hj) hk
  have hsw := sweep_no_raise w.steps (descRange w.current_step) 0
    { w with execution_log := w.execution_log ++ [{ event_type := "rollback_started" }] }
    [] rfl hbound
  have htr : (execute_rollback (fun _ => false) w).2 =
      (descRange w.current_step).map (fun j =>
        (j, compensation_handler_tag (((w.steps.get? j).getD default).action_type))) := by
    rw [execute_rollback_trace, hsw.2]
    simp
  have hfst : ((execute_rollback (fun _ => false) w).2).map Prod.fst = descRange w.current_step := by
    rw [htr]
    exact map_pair_fst
      (fun j => compensation_handler_tag (((w.steps.get? j).getD default).action_type))
      (descRange w.current_step)
  refine ⟨hfst, ?_, ?_⟩
  · rw [hfst]
    exact descRange_chain w.current_step
  · intro p hp
    rw [htr] at hp
    simp only [List.mem_map] at hp
    obtain ⟨j, hj, rfl⟩ := hp
    refine ⟨rfl, ?_⟩
    intro h1 h2 h3 h4
    show compensation_handler_tag _ = _
    unfold compensation_handler_tag
    rw [if_neg h1, if_neg h2, if_neg h3, if_neg h4]

/-- Witness for c4_rollback_reverse_order at rollback_wf: indices 2, 1, 0 in
that order, with the unregistered action_type at index 1 handled by the
generic handler. -/
theorem c4_witness :
    (rollback_wf.status = WorkflowStatus.failed ∧
     rollback_wf.current_step < rollback_wf.steps.length) ∧
    (((execute_rollback (fun _ => false) rollback_wf).2).map Prod.fst =
       descRange rollback_wf.current_step ∧
     List.Chain' (fun a b => b < a)
       (((execute_rollback (fun _ => false) rollback_wf).2).map Prod.fst) ∧
     ∀ p ∈ (execute_rollback (fun _ => false) rollback_wf).2,
       p.2 = compensation_handler_tag (((rollback_wf.steps.get? p.1).getD default).action_type) ∧
       (((rollback_wf.steps.get? p.1).getD default).action_type ≠ "process_data" →
        ((rollback_wf.steps.get? p.1).getD default).action_type ≠ "fraud_detection" →
        ((rollback_wf.steps.get? p.1).getD default).action_type ≠ "deploy_system" →
        ((rollback_wf.steps.get? p.1).getD default).action_type ≠ "validate_data" →
        p.2 = "generic_rollback")) :=
  ⟨⟨rfl, by decide⟩, c4_rollback_reverse_order rollback_wf rfl (by decide)⟩

/-- C5 counterexample: the claim says a raising compensation handler is
logged and skipped while the sweep continues to index 0 and always ends in
ROLLED_BACK.  When the handler call for index 1 raises, the single outer
try/except of execute_rollback (rollback_engine.py lines 15, 37-38) aborts
the whole sweep: only index 2 was compensated, index 0 is never visited,
rollback_failed is logged and the status stays FAILED. -/
theorem c5_counterexample :
    c5_result.1.status = WorkflowStatus.failed ∧
    c5_result.2 = [(2, "deployment_rollback")] ∧
    { event_type := "rollback_failed", step_index := none } ∈ c5_result.1.execution_log := by
  decide

/-- C5 amended: no error ever propagates out of execute_rollback (the body's
exception is caught by the outer handler), but the error is absorbed at the
whole-sweep level, not per step: either no handler call raises and the
workflow ends ROLLED_BACK with rollback_completed logged, or the first
raising call aborts the sweep, rollback_failed is logged, and the status is
left unchanged (not ROLLED_BACK). -/
theorem c5_rollback_error_absorbed (w : WorkflowInstance) (raises : Nat → Bool) :
    ((execute_rollback raises w).1.status = WorkflowStatus.rolled_back ∧
      { event_type := "rollback_completed", step_index := none } ∈
        (execute_rollback raises w).1.execution_log) ∨
    ((execute_rollback raises w).1.status = w.status ∧
      { event_type := "rollback_failed", step_index := none } ∈
        (execute_rollback raises w).1.execution_log) := by
  unfold execute_rollback
  cases hsw : compensation_sweep raises (descRange w.current_step) 0
      { w with execution_log := w.execution_log ++ [{ event_type := "rollback_started" }] }
      [] with
  | mk b p =>
    cases p with
    | mk w2 tr =>
      cases b
      · right
        constructor
        · have h := sweep_preserves_status raises (descRange w.current_step) 0
            { w with execution_log := w.execution_log ++ [{ event_type := "rollback_started" }] }
            []
          rw [hsw] at h
          exact h
        · exact List.mem_append_right _ (List.mem_singleton.2 rfl)
      · left
        exact ⟨rfl, List.mem_append_right _ (List.mem_singleton.2 rfl)⟩

/-- C6 counterexample: the claim says awaitDecision returns the resolved
action and a negative (reject) resolution is treated as a step failure.
Submitting "reject" for r1 sets the event exactly as an approval would, the
in-flight wait_for_approval returns True, and _execute_step treats True as
step success — the rejected step proceeds; the Boolean cannot carry the
action, as the approve submission signals identically. -/
theorem c6_counterexample :
    c6_submit.signaled = true ∧
    wait_for_approval ap_state "r1" c6_submit.signaled = true ∧
    execute_step_approval_outcome (wait_for_approval ap_state "r1" c6_submit.signaled) = true ∧
    (submit_approval_response ap_state "r1" "approve").signaled = c6_submit.signaled := by
  decide

/-- C6 amended: wait_for_approval returns only a Boolean — True whenever any
decision was submitted before the timeout, regardless of the action — so the
engine cannot distinguish approve from reject: any submitted decision,
including an explicit reject, makes the waiting step succeed; only a timeout
(or unknown id) follows the failure/retry path. -/
theorem c6_reject_signals_success (st : ApprovalState) (rid action : String)
    (h : (st.events.find? (fun p => p.1 = rid)).isSome = true) :
    (submit_approval_response st rid action).signaled = true ∧
    wait_for_approval st rid (submit_approval_response st rid action).signaled = true ∧
    execute_step_approval_outcome
      (wait_for_approval st rid (submit_approval_response st rid action).signaled) = true := by
  have hsig : (submit_approval_response st rid action).signaled = true := by
    rw [submit_signaled_eq]
    exact h
  have hw : wait_for_approval st rid (submit_approval_response st rid action).signaled = true := by
    rw [hsig]
    unfold wait_for_approval
    obtain ⟨p, hp⟩ := Option.isSome_iff_exists.1 h
    rw [hp]
    simp
  exact ⟨hsig, hw, by rw [hw]; rfl⟩

/-- Witness for c6_reject_signals_success: the reject decision for the
registered waiter r1. -/
theorem c6_witness :
    (ap_state.events.find? (fun p => p.1 = "r1")).isSome = true ∧
    ((submit_approval_response ap_state "r1" "reject").signaled = true ∧
     wait_for_approval ap_state "r1" (submit_approval_response ap_state "r1" "reject").signaled = true ∧
     execute_step_approval_outcome
       (wait_for_approval ap_state "r1" (submit_approval_response ap_state "r1" "reject").signaled) = true) :=
  ⟨by decide, c6_reject_signals_success ap_state "r1" "reject" (by decide)⟩

/-- C7: for a request already marked timeout, a later
submit_approval_response still records the ApprovalResponse row for audit,
returns normally (True — the function has no raise path), and leaves every
workflow record untouched, so the workflow's already-failed path is
unaffected.  The conclusions hold unconditionally — which is exactly why the
late decision cannot raise. -/
theorem c7_late_decision_recorded (st : ApprovalState) (rid action : String)
    (q : ApprovalRequestRec) (hq : q ∈ st.requests) (hid : q.id = rid)
    (hts : q.status = "timeout") :
    (submit_approval_response st rid action).returned = true ∧
    (submit_approval_response st rid action).state.responses = st.responses ++ [(rid, action)] ∧
    (submit_approval_response st rid action).state.workflows = st.workflows :=
  ⟨submit_returned_eq st rid action, submit_responses_eq st rid action,
   submit_workflows_eq st rid action⟩

/-- Witness for c7_late_decision_recorded: an approve decision arriving
after the sweep timed r1 out. -/
theorem c7_witness :
    (timeout_rec ∈ ap_state_timeout.requests ∧ timeout_rec.id = "r1" ∧
     timeout_rec.status = "timeout") ∧
    ((submit_approval_response ap_state_timeout "r1" "approve").returned = true ∧
     (submit_approval_response ap_state_timeout "r1" "approve").state.responses =
       ap_state_timeout.responses ++ [("r1", "approve")] ∧
     (submit_approval_response ap_state_timeout "r1" "approve").state.workflows =
       ap_state_timeout.workflows) :=
  ⟨⟨by decide, by decide, by decide⟩,
   c7_late_decision_recorded ap_state_timeout "r1" "approve" timeout_rec
     (by decide) (by decide) (by decide)⟩

/-- C8 counterexample: the claim says no operation of the step loop ever
writes a smaller current_step than the one already recorded before a
terminal status.  _execute_workflow iterates enumerate(workflow.steps) from
index 0 regardless of the recorded cursor (workflow_engine.py line 43): on
the running workflow whose record says current_step = 2 (as a duplicate
start of a partially progressed workflow produces), the run's first
current_step write is 0 < 2. -/
theorem c8_counterexample :
    c8_workflow.current_step = 2 ∧
    c8_result.stepWrites.head? = some 0 ∧
    0 < c8_workflow.current_step := by
  decide

/-- C8 amended: within a single _execute_workflow run the sequence of
current_step writes is non-decreasing (the loop writes 0, 1, 2, ... and the
failure/rollback path writes nothing), but the loop always restarts at 0, so
the first write can be smaller than the previously recorded cursor. -/
theorem c8_step_writes_monotone (exec raises : Nat → Bool) (w : WorkflowInstance) :
    List.Chain' (fun a b => a ≤ b) ((execute_workflow exec raises { wf := w }).stepWrites) := by
  simp only [execute_workflow]
  split <;>
    exact step_loop_writes_chain exec raises w.steps 0 { wf := w }
      (fun x hx => absurd hx (List.not_mem_nil x)) List.chain'_nil

/-- C9 counterexample: the claim says createRequest raises ValidationError
iff the supplied timeout is ≤ 0 and otherwise persists a request whose
timeout_at reflects that timeout.  For the step whose supplied timeout is 0
minutes, the AutomatedWorkflowEngine still builds a pending request (no
error path exists) with timeout_at equal to requested_at; and
ApprovalManager.create_approval_request takes no timeout argument at all,
pinning timeout_at to requested_at + 24h (86400 s). -/
theorem c9_counterexample :
    (mk_approval_request_auto "w1" zero_timeout_step 1000 "r9").status = "pending" ∧
    (mk_approval_request_auto "w1" zero_timeout_step 1000 "r9").timeout_at = 1000 ∧
    (create_approval_request ap_state "w1" "s1" 1 1000 "r9").1.status = "pending" ∧
    (create_approval_request ap_state "w1" "s1" 1 1000 "r9").1.timeout_at = 87400 := by
  refine ⟨rfl, by decide, rfl, by decide⟩

/-- C9 amended: neither implementation validates a timeout.
create_approval_request has no timeout parameter, never fails, always
persists a pending request with timeout_at = requested_at + 86400; the
AutomatedWorkflowEngine builds requests with timeout_at =
requested_at + 60 * step.timeout_minutes with no positivity check. -/
theorem c9_create_request_no_validation (st : ApprovalState) (wid sid : String)
    (lvl : Nat) (now : Int) (newId : String) (step : WorkflowStep) :
    (create_approval_request st wid sid lvl now newId).1.status = "pending" ∧
    (create_approval_request st wid sid lvl now newId).1.timeout_at = now + 86400 ∧
    (create_approval_request st wid sid lvl now newId).2.requests =
      st.requests ++ [(create_approval_request st wid sid lvl now newId).1] ∧
    (mk_approval_request_auto wid step now newId).status = "pending" ∧
    (mk_approval_request_auto wid step now newId).timeout_at = now + step.timeout_minutes * 60 :=
  ⟨rfl, rfl, rfl, rfl, rfl⟩

/-- C10: for an id with no registered waiter, wait_for_approval returns
False for any timeout outcome, without raising (it is a total function of
the pending map alone) and without consulting the Store: its result is
invariant under any change to the request/response/workflow tables. -/
theorem c10_wait_unknown_id (st : ApprovalState) (rid : String) (signaled : Bool)
    (h : st.events.find? (fun p => p.1 = rid) = none) :
    wait_for_approval st rid signaled = false ∧
    ∀ st2 : ApprovalState, st2.events = st.events →
      wait_for_approval st2 rid signaled = wait_for_approval st rid signaled := by
  constructor
  · unfold wait_for_approval
    rw [h]
  · intro st2 h2
    unfold wait_for_approval
    rw [h2]

/-- Witness for c10_wait_unknown_id: an id that was never registered. -/
theorem c10_witness :
    ap_state.events.find? (fun p => p.1 = "missing") = none ∧
    (wait_for_approval ap_state "missing" true = false ∧
     ∀ st2 : ApprovalState, st2.events = ap_state.events →
       wait_for_approval st2 "missing" true = wait_for_approval ap_state "missing" true) :=
  ⟨by decide, c10_wait_unknown_id ap_state "missing" true (by decide)⟩
